import Mathlib

/-!
Verification of the rak811v2 transport demultiplexer and command engine.

The Python sources `rak811v2/serial.py` and `rak811v2/rak811v2.py` are
shallowly embedded: lines are `List Char`, raw serial bytes are `List Nat`,
queues are Lean lists (front of list = front of queue), and exceptions are
`Except` values.  Each definition mirrors the source function of the same
name; doc comments cite the origin.
-/

/-- A Python value that is either an `int` or a `str`, as produced by
pieces of code that keep a value "numeric or the original text". -/
inductive PyVal where
  | int (n : Int)
  | str (s : List Char)
deriving DecidableEq, Repr

/-- Characters of a string literal, used to transcribe Python string
constants. -/
def chars (s : String) : List Char := s.data

/-- Python `int(s)` on a string: strip surrounding whitespace, allow one
optional sign, then require a nonempty run of decimal digits.
Returns `none` where Python raises `ValueError`. -/
def pyParseInt (s : List Char) : Option Int :=
  let ws : Char → Bool := fun c => c == ' ' || c == '\t' || c == '\n' || c == '\r'
  let t := ((s.dropWhile ws).reverse.dropWhile ws).reverse
  let digitsVal : List Char → Int := fun ds =>
    (ds.foldl (fun a c => a * 10 + (c.toNat - '0'.toNat)) 0 : Nat)
  match t with
  | [] => none
  | '+' :: ds => if ds ≠ [] ∧ ds.all Char.isDigit then some (digitsVal ds) else none
  | '-' :: ds => if ds ≠ [] ∧ ds.all Char.isDigit then some (-(digitsVal ds)) else none
  | ds => if ds.all Char.isDigit then some (digitsVal ds) else none

/-- Python `int(v)` on an int-or-str value: an `int` converts to itself. -/
def pyValToInt (v : PyVal) : Option Int :=
  match v with
  | .int n => some n
  | .str s => pyParseInt s

/-- Python `str(v)` for an int-or-str value (decimal rendering of ints). -/
def pyValStr (v : PyVal) : List Char :=
  match v with
  | .int n => if n < 0 then '-' :: Nat.toDigits 10 n.natAbs else Nat.toDigits 10 n.natAbs
  | .str s => s

namespace Serial

/-- `serial.py` line 51: `EOL = '\r\n'`. -/
def EOL : List Char := chars "\r\n"

/-- `serial.py` line 53: `RESPONSE_OK = 'OK'`. -/
def RESPONSE_OK : List Char := chars "OK"

/-- `serial.py` line 54: `RESPONSE_OK_INIT = 'Initialization OK'`. -/
def RESPONSE_OK_INIT : List Char := chars "Initialization OK"

/-- `serial.py` line 55: `RESPONSE_ERROR = 'ERROR'` — note: no trailing
colon at this layer. -/
def RESPONSE_ERROR : List Char := chars "ERROR"

/-- `serial.py` line 56: `RESPONSE_EVENT = 'at+recv='`. -/
def RESPONSE_EVENT : List Char := chars "at+recv="

/-- `serial.py` line 48: `EVENT_TIMEOUT = 5 * 60`. -/
def EVENT_TIMEOUT : Nat := 5 * 60

/-- `serial.py` line 44: `RESPONSE_TIMEOUT = 5`. -/
def RESPONSE_TIMEOUT : Nat := 5

/-- The three queues of `Rak811v2Serial.__init__`: `Resp_q`, `Info_q`,
`RecvEvents_q`. -/
inductive QId where
  | resp
  | info
  | event
deriving DecidableEq, Repr

/-- The routing decision of `Rak811v2Serial._read_loop` (`serial.py`
lines 142–153) for one decoded, EOL-stripped line: the ordered list of
queue pushes performed for that line.  The `if/elif` chain is kept in
source order: `OK`, then `ERROR`, then `at+recv=`, then
`Initialization OK`, else the info fallback. -/
def route (line : List Char) : List (QId × List Char) :=
  if RESPONSE_OK.isPrefixOf line then
    [(QId.resp, line), (QId.info, line)]
  else if RESPONSE_ERROR.isPrefixOf line then
    [(QId.resp, line)]
  else if RESPONSE_EVENT.isPrefixOf line then
    [(QId.event, line)]
  else if RESPONSE_OK_INIT.isPrefixOf line then
    [(QId.resp, line), (QId.info, line)]
  else
    [(QId.info, line)]

/-- State of the three `SimpleQueue`s; head of each list is the oldest
element. -/
structure Queues where
  resp : List (List Char)
  info : List (List Char)
  event : List (List Char)
deriving DecidableEq, Repr

/-- `SimpleQueue.put`: append at the back of the named queue. -/
def push (st : Queues) (q : QId) (l : List Char) : Queues :=
  match q with
  | QId.resp => { st with resp := st.resp ++ [l] }
  | QId.info => { st with info := st.info ++ [l] }
  | QId.event => { st with event := st.event ++ [l] }

/-- One iteration of `_read_loop` past the decode step: apply every push
of `route line`, in order, before any other line is considered. -/
def processLine (st : Queues) (line : List Char) : Queues :=
  (route line).foldl (fun s p => push s p.1 p.2) st

/-- The reader loop over a finite trace of decoded lines: lines are
processed one at a time, each one's routing applied atomically. -/
def readLoop (st : Queues) (lines : List (List Char)) : Queues :=
  lines.foldl processLine st

/-- `bytes.decode('ascii')` (`serial.py` line 141): succeeds iff every
byte is below 128, yielding the corresponding characters. -/
def decodeAscii (bs : List Nat) : Except Unit (List Char) :=
  if bs.all (fun b => b < 128) then Except.ok (bs.map Char.ofNat)
  else Except.error ()

/-- Python `str.rstrip(EOL)`: remove every trailing character drawn from
`{'\r', '\n'}`. -/
def rstripEOL (l : List Char) : List Char :=
  (l.reverse.dropWhile (fun c => c == '\r' || c == '\n')).reverse

/-- The decode–strip–classify–route step of `_read_loop` (`serial.py`
lines 141–153) on the raw bytes of one non-empty line; `Except.error`
models an exception escaping the step. -/
def readerStep (bs : List Nat) : Except Unit (List (QId × List Char)) :=
  match decodeAscii bs with
  | Except.error e => Except.error e
  | Except.ok cs => Except.ok (route (rstripEOL cs))

/-- `Rak811v2Serial._clear_q` (`serial.py` lines 110–115): drain one
queue until empty. -/
def clear_q (q : List (List Char)) : List (List Char) :=
  match q with
  | [] => []
  | _ :: rest => clear_q rest

/-- `Rak811v2Serial._clear_all_qs` (`serial.py` lines 117–120). -/
def clear_all_qs (st : Queues) : Queues :=
  { resp := clear_q st.resp, info := clear_q st.info, event := clear_q st.event }

/-- Serial-side state visible to `send_command`: the three queues plus
the characters written so far to the serial port. -/
structure SerialState where
  qs : Queues
  written : List Char
deriving DecidableEq, Repr

/-- `Rak811v2Serial.send_string` (`serial.py` lines 211–214): write the
string to the serial connection. -/
def send_string (st : SerialState) (s : List Char) : SerialState :=
  { st with written := st.written ++ s }

/-- `Rak811v2Serial.send_command` (`serial.py` lines 216–220): optionally
clear all queues, then write `at+<command>\r\n`. -/
def send_command (st : SerialState) (command : List Char) (clearq : Bool := true) : SerialState :=
  let st' := if clearq then { st with qs := clear_all_qs st.qs } else st
  send_string st' (chars "at+" ++ command ++ chars "\r\n")

/-- `Rak811v2Serial.get_event` timeout substitution (`serial.py` lines
199–200): `None` is replaced by the configured event timeout. -/
def get_event_timeout (timeout : Option Nat) (event_timeout : Nat) : Nat :=
  match timeout with
  | none => event_timeout
  | some t => t

end Serial

namespace Rak811v2

/-- `rak811v2.py` line 37: `RESPONSE_OK = 'OK'`. -/
def RESPONSE_OK : List Char := chars "OK"

/-- `rak811v2.py` line 38: `RESPONSE_ERROR = 'ERROR:'` — with colon,
unlike the serial layer. -/
def RESPONSE_ERROR : List Char := chars "ERROR:"

/-- `rak811v2.py` line 40: `RESPONSE_OK_INIT = 'Initialization OK'`. -/
def RESPONSE_OK_INIT : List Char := chars "Initialization OK"

/-- `RESPONSE_MESSAGE` (`rak811v2.py` lines 80–113): the response-code
catalog, keyed by the numeric values of `ResponseCode`.  Entry strings are
transcribed verbatim, including the leading space of the code-99 entry. -/
def RESPONSE_MESSAGE (n : Int) : Option (List Char) :=
  if n = -1 then some (chars "Unknown")
  else if n = 1 then some (chars "BAD AT Command")
  else if n = 2 then some (chars "Invalid parameter in AT command")
  else if n = 3 then some (chars "Error reading or writing flash")
  else if n = 4 then some (chars "Error reading or wrting through IIC")
  else if n = 5 then some (chars "Error sending through UART")
  else if n = 41 then some (chars "BLE in invalid state")
  else if n = 80 then some (chars "LoRa busy")
  else if n = 81 then some (chars "LoRa service unknown")
  else if n = 82 then some (chars "LoRa parameters invalid")
  else if n = 83 then some (chars "LoRa frequency invalid")
  else if n = 84 then some (chars "LoRa datarate invalid")
  else if n = 85 then some (chars "LoRa frequency and datarate are invalid")
  else if n = 86 then some (chars "Device has not joined a LoRa network")
  else if n = 87 then some (chars "Packet too long to be sent")
  else if n = 88 then some (chars "Service closed by server")
  else if n = 89 then some (chars "Unsupported region")
  else if n = 90 then some (chars "Duty cycle restricted")
  else if n = 91 then some (chars "No valid channel can be found")
  else if n = 92 then some (chars "No free channel found")
  else if n = 93 then some (chars "Status is error")
  else if n = 94 then some (chars "LoRa transmit tiemout")
  else if n = 95 then some (chars "LoRa RX1 timeout")
  else if n = 96 then some (chars "LoRa RX2 timeout")
  else if n = 97 then some (chars "Error receving in RX1")
  else if n = 98 then some (chars "Error receiving in RX2")
  else if n = 99 then some (chars " LoRa join failed")
  else if n = 100 then some (chars "Downlink repeated")
  else if n = 101 then some (chars "Payload size error with transmit DR")
  else if n = 102 then some (chars "Too many downlink frames lost")
  else if n = 103 then some (chars "Address fail")
  else if n = 104 then some (chars "Error verifying MIC")
  else none

/-- An exception value carrying `errno`, `strerror` and the rendered
message, as built by `Rak811v2ResponseError` / `Rak811v2EventError`. -/
structure ErrVal where
  errno : PyVal
  strerror : List Char
  msg : List Char
deriving DecidableEq, Repr

/-- The shared constructor body of `Rak811v2ResponseError.__init__`
(`rak811v2.py` lines 125–136) and `Rak811v2EventError.__init__` (lines
148–159), parameterised by the code table and its catch-all entry:
attempt `int(code)`, keep the original value on failure, look the result
up in the table falling back to the catch-all, and render
`'[Errno {}] {}'`. -/
def mkErr (table : Int → Option (List Char)) (unknownKey : Int) (code : PyVal) : ErrVal :=
  let errno : PyVal :=
    match pyValToInt code with
    | some n => PyVal.int n
    | none => code
  let strerror : List Char :=
    match errno with
    | PyVal.int n =>
      match table n with
      | some m => m
      | none => (table unknownKey).getD []
    | PyVal.str _ => (table unknownKey).getD []
  { errno := errno
    strerror := strerror
    msg := chars "[Errno " ++ pyValStr errno ++ chars "] " ++ strerror }

/-- `Rak811v2ResponseError.__init__` (`rak811v2.py` lines 125–136);
`ResponseCode.Unknown = -1` is the catch-all key. -/
def mkResponseError (code : PyVal) : ErrVal :=
  mkErr RESPONSE_MESSAGE (-1) code

/-- The classification step of `Rak811v2._send_command` (`rak811v2.py`
lines 231–242) on the line taken from the Response queue. -/
inductive CmdResult where
  | ok (line : List Char)
  | respError (code : List Char)
deriving DecidableEq, Repr

/-- `Rak811v2._send_command` lines 231–242: `OK` and `Initialization OK`
succeed with the untrimmed line; `ERROR:` raises from the remainder after
the colon; anything else raises from the whole line. -/
def classifyResponse (response : List Char) : CmdResult :=
  if RESPONSE_OK.isPrefixOf response then
    CmdResult.ok response
  else if RESPONSE_OK_INIT.isPrefixOf response then
    CmdResult.ok response
  else if RESPONSE_ERROR.isPrefixOf response then
    CmdResult.respError (response.drop RESPONSE_ERROR.length)
  else
    CmdResult.respError response

/-- Outcomes of `Rak811v2._send_command`. -/
inductive SendOutcome where
  | ok (line : List Char)
  | respError (e : ErrVal)
  | timeout
deriving DecidableEq, Repr

/-- The response-receiving step of `Rak811v2._send_command`
(`rak811v2.py` lines 219–225), transcribed literally: `response` is
initialised to the empty string, then `get_response` either overwrites it
or raises; in the handler the timeout is re-raised when the accumulator
is empty, otherwise execution falls through with the accumulator as the
response.  `respResult` is the outcome of `self._serial.get_response`. -/
def recvResponse (respResult : Except Unit (List Char)) : Except Unit (List Char) :=
  let response : List Char := []
  match respResult with
  | Except.ok r => Except.ok r
  | Except.error e =>
    if response.length = 0 then Except.error e else Except.ok response

/-- `Rak811v2._send_command` (`rak811v2.py` lines 209–242) past the
`send_command` write, as a function of the `get_response` outcome. -/
def send_command (respResult : Except Unit (List Char)) : SendOutcome :=
  match recvResponse respResult with
  | Except.error _ => SendOutcome.timeout
  | Except.ok response =>
    match classifyResponse response with
    | CmdResult.ok l => SendOutcome.ok l
    | CmdResult.respError c => SendOutcome.respError (mkResponseError (PyVal.str c))

/-- The collection loop shared by `Rak811v2.get_info` (`rak811v2.py`
lines 244–259) and `Rak811v2.get_events` (lines 261–277): take from the
queue, appending to the accumulator, until a take times out; then return
the accumulator unless it is empty, in which case the timeout propagates.
The queue is modelled as the list of items it will yield before the
first timeout. -/
def collectLoop (q : List (List Char)) (acc : List (List Char)) :
    Except Unit (List (List Char)) :=
  match q with
  | [] => if acc.length ≠ 0 then Except.ok acc.reverse else Except.error ()
  | x :: rest => collectLoop rest (x :: acc)

/-- `Rak811v2.get_info` (`rak811v2.py` lines 244–259). -/
def get_info (q : List (List Char)) : Except Unit (List (List Char)) :=
  collectLoop q []

/-- `Rak811v2.get_events` (`rak811v2.py` lines 261–277). -/
def get_events (q : List (List Char)) : Except Unit (List (List Char)) :=
  collectLoop q []

/-- The default value of the `timeout` parameter in the signature
`def get_events(self, timeout=10)` (`rak811v2.py` line 261). -/
def get_events_default_timeout : Option Nat := some 10

/-- Python `str.split(',')` (`rak811v2.py` lines 421 and 428): always a
non-empty list of fields; splitting the empty string gives `[""]`. -/
def splitOnComma : List Char → List (List Char)
  | [] => [[]]
  | c :: rest =>
    match splitOnComma rest with
    | [] => [[]]
    | h :: t => if c = ',' then [] :: h :: t else (c :: h) :: t

/-- `Rak811v2._int` (`rak811v2.py` lines 197–203): attempt int
conversion, keep the original value on `ValueError`. -/
def intOrKeep (s : List Char) : PyVal :=
  match pyParseInt s with
  | some n => PyVal.int n
  | none => PyVal.str s

/-- Modelled from the spec: the `EventCode` enumeration is referenced by
`_process_events` and `Rak811v2EventError` but absent from the sources.
Spec §8 fixes the received-data code as `5`; the catch-all mirrors
`ResponseCode.Unknown = -1` (§4.5, "identical resolution pattern"); the
spec gives no numeric values for the confirmed/unconfirmed send codes,
fixed here as the distinct placeholders 1 and 2. -/
def RECV_DATA : Int := 5

/-- Modelled from the spec: confirmed-send event code (value not given by
the spec). -/
def TX_COMFIRMED : Int := 1

/-- Modelled from the spec: unconfirmed-send event code (value not given
by the spec). -/
def TX_UNCOMFIRMED : Int := 2

/-- Modelled from the spec: the event-error catch-all key, mirroring
`ResponseCode.Unknown = -1`. -/
def EVENT_UNKNOWN : Int := -1

/-- Modelled from the spec: `EVENT_MESSAGE` is referenced by
`Rak811v2EventError.__init__` but absent from the sources; spec §2
specifies a single static code-to-message catalog shared by
response-error and event-error translation, so the response catalog is
reused. -/
def EVENT_MESSAGE : Int → Option (List Char) := RESPONSE_MESSAGE

/-- `Rak811v2EventError.__init__` (`rak811v2.py` lines 148–159): the same
constructor body as `Rak811v2ResponseError`, resolved against the event
catalog. -/
def mkEventError (status : PyVal) : ErrVal :=
  mkErr EVENT_MESSAGE EVENT_UNKNOWN status

/-- The leading comma-separated status field of an event line, converted
by `_int` (`rak811v2.py` lines 421–423 and 428–429). -/
def statusOf (event : List Char) : PyVal :=
  intOrKeep ((splitOnComma event).headD [])

/-- The benign-status test of the second pass of `_process_events`
(`rak811v2.py` lines 430–432). -/
def benign (v : PyVal) : Bool :=
  v == PyVal.int RECV_DATA || v == PyVal.int TX_COMFIRMED || v == PyVal.int TX_UNCOMFIRMED

/-- The downlink store mutated by `_add_downlink`. -/
structure ProcState where
  downlinks : List (List (List Char))
deriving DecidableEq, Repr

/-- Modelled from the spec: `_add_downlink` is called by
`_process_events` (`rak811v2.py` line 425) but absent from the sources;
spec §4.6 hands the remaining fields to a downlink-extraction routine,
modelled as appending the field list to the collected downlinks. -/
def add_downlink (st : ProcState) (event_items : List (List Char)) : ProcState :=
  { downlinks := st.downlinks ++ [event_items] }

/-- `Rak811v2._process_events` (`rak811v2.py` lines 407–433) applied to a
collected event batch: a first pass extracts a downlink from every event
whose status is the received-data code, then a second pass raises
`Rak811v2EventError` at the first event whose status is not benign.  The
result pairs the downlink store after the first pass with the raised
error, if any. -/
def process_events (st : ProcState) (events : List (List Char)) :
    ProcState × Option ErrVal :=
  let st' := events.foldl
    (fun s event =>
      let event_items := splitOnComma event
      if statusOf event = PyVal.int RECV_DATA then add_downlink s event_items.tail
      else s) st
  match events.find? (fun event => !(benign (statusOf event))) with
  | some event => (st', some (mkEventError (statusOf event)))
  | none => (st', none)

end Rak811v2

/-! ## Theorems -/

theorem clear_q_eq_nil (q : List (List Char)) : Serial.clear_q q = [] := by
  induction q with
  | nil => rfl
  | cons x rest ih => simpa [Serial.clear_q] using ih

theorem collectLoop_eq (q acc : List (List Char)) :
    Rak811v2.collectLoop q acc =
      if acc.reverse ++ q = [] then Except.error () else Except.ok (acc.reverse ++ q) := by
  induction q generalizing acc with
  | nil =>
    cases acc with
    | nil => rfl
    | cons a as => simp [Rak811v2.collectLoop]
  | cons x rest ih =>
    have h := ih (x :: acc)
    simpa [Rak811v2.collectLoop, List.append_assoc] using h

/-- Claim C1, counterexample: the claim classifies `ERROR 2` as Info
(routed to the Info queue only), but the reader's classifier tests the
colon-less `ERROR` constant, so `ERROR 2` is routed to the Response queue. -/
theorem c1_counterexample :
    Serial.route (chars "ERROR 2") = [(Serial.QId.resp, chars "ERROR 2")] ∧
      Serial.route (chars "ERROR 2") ≠ [(Serial.QId.info, chars "ERROR 2")] := by
  constructor
  · rfl
  · decide

/-- Claim C1, amended: the classifier checks prefixes in the fixed order
`OK`, then `ERROR` (without colon, per `serial.py` line 55), then
`at+recv=`, then `Initialization OK`, and a line matching none of the four
goes to the Info queue only; a line that begins with `ERROR` but not with
`ERROR:` (for example `ERROR 2`) matches the `ERROR` test and is routed to
the Response queue only. -/
theorem c1_classifier_order :
    (∀ l : List Char,
      Serial.RESPONSE_OK.isPrefixOf l = false →
      Serial.RESPONSE_ERROR.isPrefixOf l = false →
      Serial.RESPONSE_EVENT.isPrefixOf l = false →
      Serial.RESPONSE_OK_INIT.isPrefixOf l = false →
      Serial.route l = [(Serial.QId.info, l)]) ∧
    (∀ rest : List Char,
      Serial.route (chars "ERROR" ++ rest) =
        [(Serial.QId.resp, chars "ERROR" ++ rest)]) ∧
    Serial.route (chars "ERROR 2") = [(Serial.QId.resp, chars "ERROR 2")] := by
  refine ⟨fun l h1 h2 h3 h4 => ?_, fun rest => ?_, rfl⟩
  · simp [Serial.route, h1, h2, h3, h4]
  · cases rest <;> rfl

/-- Claim C1 witness: the amended theorem applied at the concrete line
`foo`, which matches none of the four prefixes and is routed to Info. -/
theorem c1_witness :
    Serial.route (chars "foo") = [(Serial.QId.info, chars "foo")] :=
  c1_classifier_order.1 (chars "foo") (by decide) (by decide) (by decide) (by decide)

/-- Claim C2: `OK`- and `Initialization OK`-prefixed lines are pushed to
the Response queue and then the Info queue, and to no other queue, as the
single atomic routing step of that line (`processLine` applies both pushes
before `readLoop` touches the next line); `ERROR:`-prefixed lines reach
only the Response queue and `at+recv=`-prefixed lines only the Event
queue. -/
theorem c2_routing :
    (∀ rest : List Char,
      Serial.route (chars "OK" ++ rest) =
        [(Serial.QId.resp, chars "OK" ++ rest), (Serial.QId.info, chars "OK" ++ rest)]) ∧
    (∀ rest : List Char,
      Serial.route (chars "Initialization OK" ++ rest) =
        [(Serial.QId.resp, chars "Initialization OK" ++ rest),
         (Serial.QId.info, chars "Initialization OK" ++ rest)]) ∧
    (∀ rest : List Char,
      Serial.route (chars "ERROR:" ++ rest) =
        [(Serial.QId.resp, chars "ERROR:" ++ rest)]) ∧
    (∀ rest : List Char,
      Serial.route (chars "at+recv=" ++ rest) =
        [(Serial.QId.event, chars "at+recv=" ++ rest)]) ∧
    (∀ (st : Serial.Queues) (rest : List Char),
      Serial.processLine st (chars "OK" ++ rest) =
        Serial.push (Serial.push st Serial.QId.resp (chars "OK" ++ rest))
          Serial.QId.info (chars "OK" ++ rest)) ∧
    (∀ (st : Serial.Queues) (rest : List Char),
      Serial.processLine st (chars "Initialization OK" ++ rest) =
        Serial.push (Serial.push st Serial.QId.resp (chars "Initialization OK" ++ rest))
          Serial.QId.info (chars "Initialization OK" ++ rest)) ∧
    (∀ (st : Serial.Queues) (l : List Char) (ls : List (List Char)),
      Serial.readLoop st (l :: ls) = Serial.readLoop (Serial.processLine st l) ls) :=
  ⟨fun rest => by cases rest <;> rfl,
   fun rest => by cases rest <;> rfl,
   fun rest => by cases rest <;> rfl,
   fun rest => by cases rest <;> rfl,
   fun st rest => by cases rest <;> rfl,
   fun st rest => by cases rest <;> rfl,
   fun st l ls => rfl⟩

/-- Claim C3: the command engine returns `OK`- and
`Initialization OK`-prefixed response lines unchanged, raises
`Rak811v2ResponseError` from the remainder after `ERROR:` on
`ERROR:`-prefixed lines, raises it from the entire line otherwise, and
succeeds exactly on the first two prefixes. -/
theorem c3_send_command_classification :
    (∀ rest : List Char,
      Rak811v2.classifyResponse (chars "OK" ++ rest) =
        Rak811v2.CmdResult.ok (chars "OK" ++ rest)) ∧
    (∀ rest : List Char,
      Rak811v2.classifyResponse (chars "Initialization OK" ++ rest) =
        Rak811v2.CmdResult.ok (chars "Initialization OK" ++ rest)) ∧
    (∀ rest : List Char,
      Rak811v2.classifyResponse (chars "ERROR:" ++ rest) =
        Rak811v2.CmdResult.respError rest) ∧
    (∀ l : List Char,
      Rak811v2.RESPONSE_OK.isPrefixOf l = false →
      Rak811v2.RESPONSE_OK_INIT.isPrefixOf l = false →
      Rak811v2.RESPONSE_ERROR.isPrefixOf l = false →
      Rak811v2.classifyResponse l = Rak811v2.CmdResult.respError l) ∧
    (∀ l : List Char,
      Rak811v2.classifyResponse l = Rak811v2.CmdResult.ok l ↔
        (Rak811v2.RESPONSE_OK.isPrefixOf l || Rak811v2.RESPONSE_OK_INIT.isPrefixOf l) = true) := by
  refine ⟨fun rest => by cases rest <;> rfl,
          fun rest => by cases rest <;> rfl,
          fun rest => by cases rest <;> rfl,
          fun l h1 h2 h3 => by simp [Rak811v2.classifyResponse, h1, h2, h3],
          fun l => ?_⟩
  unfold Rak811v2.classifyResponse
  rcases hOK : Rak811v2.RESPONSE_OK.isPrefixOf l with _ | _ <;>
    rcases hInit : Rak811v2.RESPONSE_OK_INIT.isPrefixOf l with _ | _ <;>
      rcases hErr : Rak811v2.RESPONSE_ERROR.isPrefixOf l with _ | _ <;>
        simp [hOK, hInit, hErr]

/-- Claim C3 witness: the fourth conjunct applied at the concrete line
`junk`, which matches neither success nor `ERROR:`, so the whole line
becomes the error code. -/
theorem c3_witness :
    Rak811v2.classifyResponse (chars "junk") =
      Rak811v2.CmdResult.respError (chars "junk") :=
  c3_send_command_classification.2.2.2.1 (chars "junk") (by decide) (by decide) (by decide)

/-- Claim C4, counterexample: the claim asserts `ResponseError(99)` has
message `LoRa join failed`, but the catalog entry for code 99
(`rak811v2.py` line 107) carries a leading space, so the message is
`· LoRa join failed` and differs from the claimed text. -/
theorem c4_counterexample :
    (Rak811v2.mkResponseError (PyVal.int 99)).strerror = chars " LoRa join failed" ∧
      (Rak811v2.mkResponseError (PyVal.int 99)).strerror ≠ chars "LoRa join failed" := by
  constructor
  · rfl
  · decide

/-- Claim C4, amended: `ResponseError(code)` parses `code` as an integer
when possible, setting `errno` to the integer; a recognized integer gets
its catalog message, an unrecognized one the `Unknown` message with
`errno` still the original integer; an unparseable `code` is retained as
text with the `Unknown` message; the exception renders as
`[Errno {errno}] {message}`.  Concretely, `ResponseError(99)` yields the
catalog entry for 99, which is `· LoRa join failed` with a leading space
(not `LoRa join failed`), and `ResponseError(9999)` yields the `Unknown`
message with `errno` equal to 9999. -/
theorem c4_response_error :
    (∀ code : PyVal,
      (Rak811v2.mkResponseError code).msg =
        chars "[Errno " ++ pyValStr (Rak811v2.mkResponseError code).errno ++
          chars "] " ++ (Rak811v2.mkResponseError code).strerror) ∧
    (∀ (s : List Char) (n : Int), pyParseInt s = some n →
      (Rak811v2.mkResponseError (PyVal.str s)).errno = PyVal.int n) ∧
    (∀ n : Int, Rak811v2.RESPONSE_MESSAGE n = none →
      (Rak811v2.mkResponseError (PyVal.int n)).errno = PyVal.int n ∧
      (Rak811v2.mkResponseError (PyVal.int n)).strerror = chars "Unknown") ∧
    (∀ s : List Char, pyParseInt s = none →
      (Rak811v2.mkResponseError (PyVal.str s)).errno = PyVal.str s ∧
      (Rak811v2.mkResponseError (PyVal.str s)).strerror = chars "Unknown") ∧
    (Rak811v2.mkResponseError (PyVal.int 99)).errno = PyVal.int 99 ∧
    (Rak811v2.mkResponseError (PyVal.int 99)).strerror = chars " LoRa join failed" ∧
    (Rak811v2.mkResponseError (PyVal.int 9999)).errno = PyVal.int 9999 ∧
    (Rak811v2.mkResponseError (PyVal.int 9999)).strerror = chars "Unknown" := by
  refine ⟨fun code => rfl, fun s n h => ?_, fun n h => ?_, fun s h => ?_,
          rfl, rfl, rfl, rfl⟩
  · simp [Rak811v2.mkResponseError, Rak811v2.mkErr, pyValToInt, h]
  · refine ⟨rfl, ?_⟩
    simp only [Rak811v2.mkResponseError, Rak811v2.mkErr, pyValToInt]
    rw [h]
    rfl
  · constructor <;>
      simp [Rak811v2.mkResponseError, Rak811v2.mkErr, pyValToInt, h,
        Rak811v2.RESPONSE_MESSAGE]

/-- Claim C4 witness: the amended theorem instantiated at concrete codes —
the parseable string `86` and the unparseable string `boom`. -/
theorem c4_witness :
    (Rak811v2.mkResponseError (PyVal.str (chars "86"))).errno = PyVal.int 86 ∧
      (Rak811v2.mkResponseError (PyVal.str (chars "boom"))).errno =
        PyVal.str (chars "boom") ∧
      (Rak811v2.mkResponseError (PyVal.int 7777)).strerror = chars "Unknown" :=
  ⟨c4_response_error.2.1 (chars "86") 86 (by decide),
   (c4_response_error.2.2.2.1 (chars "boom") (by decide)).1,
   (c4_response_error.2.2.1 7777 (by decide)).2⟩

/-- Claim C5: `get_info` and `get_events` drain their queue into an
accumulator; if the first per-item timeout fires with the accumulator
empty the timeout propagates, otherwise exactly the collected items are
returned in arrival order.  The queue is modelled as the list of items it
yields before its first timeout. -/
theorem c5_collect :
    ∀ q : List (List Char),
      Rak811v2.get_info q =
        (if q = [] then Except.error () else Except.ok q) ∧
      Rak811v2.get_events q =
        (if q = [] then Except.error () else Except.ok q) := by
  intro q
  constructor <;> simpa [Rak811v2.get_info, Rak811v2.get_events] using collectLoop_eq q []

/-- Claim C6: `send_command` with `clearq` true drains all three queues to
empty and then appends exactly `at+<command>\r\n` to the serial output; in
particular any stale Response item is discarded before the write. -/
theorem c6_send_command :
    ∀ (st : Serial.SerialState) (command : List Char),
      (Serial.send_command st command true).qs = ⟨[], [], []⟩ ∧
      (Serial.send_command st command true).written =
        st.written ++ (chars "at+" ++ command ++ chars "\r\n") ∧
      (Serial.send_command st command true).qs.resp = [] := by
  intro st command
  refine ⟨?_, rfl, ?_⟩ <;>
    simp [Serial.send_command, Serial.send_string, Serial.clear_all_qs, clear_q_eq_nil]

/-- Claim C9: whenever the take-response step of `_send_command` raises a
timeout, the timeout propagates to the caller — the suppression guard
compares the accumulator, which is still the empty string at the exception
point, so it always re-raises. -/
theorem c9_timeout_propagates :
    ∀ e : Unit,
      Rak811v2.recvResponse (Except.error e) = Except.error e ∧
      Rak811v2.send_command (Except.error e) = Rak811v2.SendOutcome.timeout :=
  fun e => ⟨rfl, rfl⟩

theorem foldl_downlinks (evs : List (List Char)) : ∀ st : Rak811v2.ProcState,
    (evs.foldl (fun s event =>
      if Rak811v2.statusOf event = PyVal.int Rak811v2.RECV_DATA
      then Rak811v2.add_downlink s (Rak811v2.splitOnComma event).tail else s) st).downlinks =
      st.downlinks ++
        evs.filterMap (fun ev =>
          if Rak811v2.statusOf ev = PyVal.int Rak811v2.RECV_DATA
          then some (Rak811v2.splitOnComma ev).tail else none) := by
  induction evs with
  | nil => intro st; simp
  | cons ev rest ih =>
    intro st
    by_cases hp : Rak811v2.statusOf ev = PyVal.int Rak811v2.RECV_DATA
    · simp only [List.foldl_cons, hp, eq_self_iff_true, if_true]
      rw [ih]
      simp [Rak811v2.add_downlink, List.filterMap_cons, hp]
    · simp only [List.foldl_cons, if_neg hp]
      rw [ih]
      simp [List.filterMap_cons, hp]

theorem process_events_fst_eq (st : Rak811v2.ProcState) (evs : List (List Char)) :
    (Rak811v2.process_events st evs).fst =
      evs.foldl (fun s event =>
        if Rak811v2.statusOf event = PyVal.int Rak811v2.RECV_DATA
        then Rak811v2.add_downlink s (Rak811v2.splitOnComma event).tail else s) st := by
  unfold Rak811v2.process_events
  cases hf : evs.find? (fun event => !(Rak811v2.benign (Rak811v2.statusOf event))) <;>
    simp [hf]

theorem process_events_snd_none (st : Rak811v2.ProcState) (evs : List (List Char)) :
    (Rak811v2.process_events st evs).snd = none ↔
      ∀ ev ∈ evs, Rak811v2.benign (Rak811v2.statusOf ev) = true := by
  unfold Rak811v2.process_events
  cases hf : evs.find? (fun event => !(Rak811v2.benign (Rak811v2.statusOf event))) with
  | none =>
    rw [List.find?_eq_none] at hf
    simpa using hf
  | some ev =>
    have hmem := List.mem_of_find?_eq_some hf
    have hp := List.find?_some hf
    simp only [Bool.not_eq_true'] at hp
    simp only [hf]
    constructor
    · intro h; cases h
    · intro h
      rw [h ev hmem] at hp
      cases hp

/-- Claim C7: `EventError` resolves its status by the same pattern as
`ResponseError` (integer parse, table lookup, `Unknown` fallback,
`[Errno {code}] {message}` rendering), and `_process_events` extracts the
downlinks of all received-data events in a first pass over the whole
batch before a second pass raises `EventError` at the first non-benign
status — so a batch holding a downlink followed by an error line
completes the extraction before the error is raised. -/
theorem c7_process_events :
    (∀ code : PyVal,
      Rak811v2.mkEventError code =
        Rak811v2.mkErr Rak811v2.EVENT_MESSAGE Rak811v2.EVENT_UNKNOWN code ∧
      Rak811v2.mkResponseError code = Rak811v2.mkErr Rak811v2.RESPONSE_MESSAGE (-1) code ∧
      (Rak811v2.mkEventError code).msg =
        chars "[Errno " ++ pyValStr (Rak811v2.mkEventError code).errno ++
          chars "] " ++ (Rak811v2.mkEventError code).strerror) ∧
    (∀ (s : List Char) (n : Int), pyParseInt s = some n →
      (Rak811v2.mkEventError (PyVal.str s)).errno = PyVal.int n) ∧
    (∀ s : List Char, pyParseInt s = none →
      (Rak811v2.mkEventError (PyVal.str s)).errno = PyVal.str s ∧
      (Rak811v2.mkEventError (PyVal.str s)).strerror = chars "Unknown") ∧
    (∀ (st : Rak811v2.ProcState) (evs : List (List Char)),
      (Rak811v2.process_events st evs).fst.downlinks =
        st.downlinks ++
          evs.filterMap (fun ev =>
            if Rak811v2.statusOf ev = PyVal.int Rak811v2.RECV_DATA
            then some (Rak811v2.splitOnComma ev).tail else none)) ∧
    (∀ (st : Rak811v2.ProcState) (evs : List (List Char)),
      (Rak811v2.process_events st evs).snd = none ↔
        ∀ ev ∈ evs, Rak811v2.benign (Rak811v2.statusOf ev) = true) ∧
    (∀ (st : Rak811v2.ProcState) (evs : List (List Char)) (ev : List Char),
      evs.find? (fun event => !(Rak811v2.benign (Rak811v2.statusOf event))) = some ev →
      (Rak811v2.process_events st evs).snd =
        some (Rak811v2.mkEventError (Rak811v2.statusOf ev))) ∧
    Rak811v2.process_events ⟨[]⟩ [chars "5,1,10,3,48656C6C6F", chars "86"] =
      (⟨[[chars "1", chars "10", chars "3", chars "48656C6C6F"]]⟩,
        some (Rak811v2.mkEventError (PyVal.int 86))) := by
  refine ⟨fun code => ⟨rfl, rfl, rfl⟩, fun s n h => ?_, fun s h => ?_,
          fun st evs => ?_, process_events_snd_none, fun st evs ev hf => ?_, ?_⟩
  · simp [Rak811v2.mkEventError, Rak811v2.mkErr, pyValToInt, h]
  · constructor <;>
      simp [Rak811v2.mkEventError, Rak811v2.mkErr, pyValToInt, h,
        Rak811v2.EVENT_MESSAGE, Rak811v2.EVENT_UNKNOWN, Rak811v2.RESPONSE_MESSAGE]
  · rw [process_events_fst_eq]
    exact foldl_downlinks evs st
  · unfold Rak811v2.process_events
    simp [hf]
  · decide

/-- Claim C7 witness: the parse conjuncts at the concrete statuses `86`
and `oops`, and the raise conjunct at the spec's two-event batch, whose
first non-benign event is `86`. -/
theorem c7_witness :
    (Rak811v2.mkEventError (PyVal.str (chars "86"))).errno = PyVal.int 86 ∧
      (Rak811v2.mkEventError (PyVal.str (chars "oops"))).errno =
        PyVal.str (chars "oops") ∧
      (Rak811v2.process_events ⟨[]⟩ [chars "5,1,10,3,48656C6C6F", chars "86"]).snd =
        some (Rak811v2.mkEventError (Rak811v2.statusOf (chars "86"))) :=
  ⟨c7_process_events.2.1 (chars "86") 86 (by decide),
   (c7_process_events.2.2.1 (chars "oops") (by decide)).1,
   c7_process_events.2.2.2.2.2.1 ⟨[]⟩ [chars "5,1,10,3,48656C6C6F", chars "86"]
     (chars "86") (by decide)⟩

/-- Claim C8, counterexample: the claim asserts the decode step is total
over all byte contents of a line, but a byte outside the ASCII range
makes `decode('ascii')` raise: the reader step fails on the one-byte line
`0xFF`. -/
theorem c8_counterexample : Serial.readerStep [255] = Except.error () := rfl

/-- Claim C8, amended: for every line whose bytes are all ASCII (below
128), the reader's decode–strip–classify–route step completes without
raising, and a malformed such line — one matching no classification
prefix — is routed to the Info queue rather than producing a failure; for
a line containing a byte of 128 or more, the ASCII decode step itself
raises (inside the reader thread). -/
theorem c8_reader_total :
    (∀ bs : List Nat, bs.all (fun b => b < 128) = true →
      ∃ r, Serial.readerStep bs = Except.ok r) ∧
    (∀ bs : List Nat, bs.all (fun b => b < 128) = true →
      Serial.RESPONSE_OK.isPrefixOf (Serial.rstripEOL (bs.map Char.ofNat)) = false →
      Serial.RESPONSE_ERROR.isPrefixOf (Serial.rstripEOL (bs.map Char.ofNat)) = false →
      Serial.RESPONSE_EVENT.isPrefixOf (Serial.rstripEOL (bs.map Char.ofNat)) = false →
      Serial.RESPONSE_OK_INIT.isPrefixOf (Serial.rstripEOL (bs.map Char.ofNat)) = false →
      Serial.readerStep bs =
        Except.ok [(Serial.QId.info, Serial.rstripEOL (bs.map Char.ofNat))]) := by
  constructor
  · intro bs h
    refine ⟨Serial.route (Serial.rstripEOL (bs.map Char.ofNat)), ?_⟩
    simp [Serial.readerStep, Serial.decodeAscii, h]
  · intro bs h h1 h2 h3 h4
    simp [Serial.readerStep, Serial.decodeAscii, h, Serial.route, h1, h2, h3, h4]

/-- Claim C8 witness: the amended theorem at the concrete raw line
`A\r\n` — pure ASCII, terminator stripped to `A`, matching no prefix,
routed to Info. -/
theorem c8_witness :
    Serial.readerStep [65, 13, 10] = Except.ok [(Serial.QId.info, chars "A")] :=
  c8_reader_total.2 [65, 13, 10] (by decide) (by decide) (by decide) (by decide) (by decide)

/-- Claim C10: the default `get_events` call passes a per-item timeout of
10 seconds, and the serial layer substitutes the configured 300-second
event timeout only for an explicit `None` argument, so the long event wait
does not apply to the default call. -/
theorem c10_event_timeout :
    Serial.get_event_timeout Rak811v2.get_events_default_timeout Serial.EVENT_TIMEOUT = 10 ∧
      Serial.get_event_timeout none Serial.EVENT_TIMEOUT = 300 ∧
      Serial.EVENT_TIMEOUT = 300 ∧
      Rak811v2.get_events_default_timeout ≠ none ∧
      Serial.get_event_timeout Rak811v2.get_events_default_timeout Serial.EVENT_TIMEOUT ≠
        Serial.EVENT_TIMEOUT := by
  refine ⟨rfl, rfl, rfl, ?_, ?_⟩ <;> decide

